import Mathlib

/-!
Shallow embedding of the authoritative server core of Poly_RPG
(server/player.js, server/npc.js, server/projectile.js, server/game_state.js,
server/constants_server.js), together with theorems settling the spec claims.

JavaScript numbers are modelled by `JsNum`: either NaN or a finite rational.
All arithmetic appearing in the embedded code is exact on finite values
(comparisons, +, -, /2, min, max), so rationals are faithful; NaN propagation
through `Math.min`/`Math.max` and comparisons follows the JS semantics.
I/O side effects (WebSocket sends, broadcasts, timers, console logs) are
modelled as an explicit list of emitted events / boolean scheduling flags.
-/

namespace PolyRPG

/-- JavaScript number: NaN or a finite rational. (The embedded code clamps
infinite inputs through `Math.min`/`Math.max` against finite bounds before
storing them, and never produces infinities itself, so only NaN needs a
distinguished representation.) -/
inductive JsNum where
  | nan : JsNum
  | num : ℚ → JsNum
deriving DecidableEq

/-- True exactly on finite numbers (not NaN). -/
def JsNum.isFinite : JsNum → Bool
  | .nan => false
  | .num _ => true

/-- JS `Math.min`: NaN if either argument is NaN. -/
def jsMin : JsNum → JsNum → JsNum
  | .nan, _ => .nan
  | _, .nan => .nan
  | .num a, .num b => .num (min a b)

/-- JS `Math.max`: NaN if either argument is NaN. -/
def jsMax : JsNum → JsNum → JsNum
  | .nan, _ => .nan
  | _, .nan => .nan
  | .num a, .num b => .num (max a b)

/-- JS `+` on numbers; NaN-propagating. -/
def jsAdd : JsNum → JsNum → JsNum
  | .num a, .num b => .num (a + b)
  | _, _ => .nan

/-- JS `-` on numbers; NaN-propagating. -/
def jsSub : JsNum → JsNum → JsNum
  | .num a, .num b => .num (a - b)
  | _, _ => .nan

/-- JS `/` on numbers; NaN-propagating. Every divisor in the embedded code is
the literal 2, so the finite/zero-divisor corner of JS division never arises. -/
def jsDiv : JsNum → JsNum → JsNum
  | .num a, .num b => .num (a / b)
  | _, _ => .nan

/-- JS `<=` on numbers: false whenever either side is NaN. -/
def jsLe : JsNum → JsNum → Bool
  | .num a, .num b => a ≤ b
  | _, _ => false

/-- JS `>=` on numbers: false whenever either side is NaN. -/
def jsGe : JsNum → JsNum → Bool
  | .num a, .num b => b ≤ a
  | _, _ => false

@[simp] theorem jsMin_num (a b : ℚ) : jsMin (.num a) (.num b) = .num (min a b) := rfl
@[simp] theorem jsMax_num (a b : ℚ) : jsMax (.num a) (.num b) = .num (max a b) := rfl
@[simp] theorem jsAdd_num (a b : ℚ) : jsAdd (.num a) (.num b) = .num (a + b) := rfl
@[simp] theorem jsSub_num (a b : ℚ) : jsSub (.num a) (.num b) = .num (a - b) := rfl
@[simp] theorem jsDiv_num (a b : ℚ) : jsDiv (.num a) (.num b) = .num (a / b) := rfl
@[simp] theorem jsLe_num (a b : ℚ) : jsLe (.num a) (.num b) = decide (a ≤ b) := rfl
@[simp] theorem jsGe_num (a b : ℚ) : jsGe (.num a) (.num b) = decide (b ≤ a) := rfl

/-- A 3-vector of JS numbers (`{x, y, z}` objects). -/
structure JVec3 where
  x : JsNum
  y : JsNum
  z : JsNum
deriving DecidableEq

/-- Builds a finite `{x, y, z}` vector from rationals. -/
def qv (a b c : ℚ) : JVec3 := ⟨.num a, .num b, .num c⟩

/-! Constants from server/constants_server.js. -/

def GRAVITY : ℚ := -196/10
def PLAYER_JUMP_VELOCITY : ℚ := 8
def PLAYER_GROUND_Y : ℚ := 1/2
def NPC_DEFAULT_HEALTH : ℚ := 50
def NPC_PATROL_SPEED : ℚ := 2
def NPC_PATROL_WAIT_TIME : ℚ := 3000
def SCORE_PER_PLAYER_KILL : ℚ := 1
def SCORE_PER_NPC_KILL : ℚ := 5
def PLAYER_RESPAWN_DELAY : ℚ := 3000
def PLAYER_INACTIVITY_TIMEOUT : ℚ := 180000
def WORLD_BOUNDS_X : ℚ := 125
def WORLD_BOUNDS_Z : ℚ := 125
def WORLD_MIN_Y : ℚ := -10

/-- One entry of `WEAPON_CONFIGS`. `burstSpread` (an irrational constant,
`Math.PI / 36`, present only on the burst weapon) is omitted: no embedded
operation reads it. -/
structure WeaponConfig where
  type : String
  speed : ℚ
  lifetime : ℚ
  damage : ℚ
  radius : ℚ
  cooldown : ℚ
  burstCount : Option Nat := none
  burstDelay : Option ℚ := none
deriving DecidableEq

/-- The server-authoritative weapon table (string-keyed object, modelled as an
association list in source order). -/
def WEAPON_CONFIGS : List (String × WeaponConfig) :=
  [("default", { type := "default", speed := 25, lifetime := 2500, damage := 20,
                 radius := 3/20, cooldown := 500 }),
   ("fast",    { type := "fast", speed := 40, lifetime := 1500, damage := 8,
                 radius := 1/10, cooldown := 150 }),
   ("burst",   { type := "burst", speed := 30, lifetime := 1800, damage := 12,
                 radius := 3/25, cooldown := 800,
                 burstCount := some 3, burstDelay := some 60 })]

/-- JS property lookup `WEAPON_CONFIGS[w]` (undefined when the key is absent). -/
def lookupWeaponConfig (w : String) : Option WeaponConfig :=
  (WEAPON_CONFIGS.find? (fun kv => kv.1 == w)).map Prod.snd

/-- JS `WEAPON_CONFIGS[w] || WEAPON_CONFIGS['default']`. -/
def getWeaponConfig (w : String) : WeaponConfig :=
  (lookupWeaponConfig w).getD
    { type := "default", speed := 25, lifetime := 2500, damage := 20,
      radius := 3/20, cooldown := 500 }

/-! Player (server/player.js). WebSocket handles, the broadcast callback, the
spawn-position callback, name/color cosmetics and the weapon-cycling index are
not read by any operation embedded here and are omitted; messages sent through
`ws.send`/`broadcast` are modelled as an emitted-event list, and the
`setTimeout` respawn timer as the `respawnScheduled` flag. -/

/-- Messages a Player operation sends (via `broadcast` or `ws.send`). -/
inductive PEvent where
  | playerHit (playerId shooterId : String) (damage remainingHealth : ℚ)
  | playerDied (killerId : Option String)
deriving DecidableEq

/-- Mutable server-side player state. -/
structure PlayerState where
  id : String
  maxHealth : ℚ
  health : ℚ
  score : ℚ
  isAlive : Bool
  lastShooterId : Option String
  position : JVec3
  rotationY : JsNum
  velocity : JVec3
  isJumping : Bool
  isGrounded : Bool
  isSprinting : Bool
  isMovingForward : Bool
  isMovingBackward : Bool
  isTurningLeft : Bool
  isTurningRight : Bool
  isShooting : Bool
  currentWeapon : String
  lastShotTime : ℚ
  lastUpdateTime : ℚ
  lastInputSeq : ℚ
  respawnScheduled : Bool
deriving DecidableEq

/-- Payload of a `player_update` message as read by `Player.updateState`.
`Option` models absent (`undefined`) fields: the source tests `if
(updateData.position)`, `if (updateData.rotation)` and `inputSeq !==
undefined`, and applies `?? this.flag` defaulting to each input flag. A
present-but-NaN `inputSeq` is `some .nan`. -/
structure UpdateData where
  position : Option JVec3
  rotation : Option JsNum
  inputSeq : Option JsNum
  movingForward : Option Bool
  movingBackward : Option Bool
  turningLeft : Option Bool
  turningRight : Option Bool
  isShooting : Option Bool
  isSprinting : Option Bool
deriving DecidableEq

/-- Clamp of a client X coordinate:
`Math.max(-WORLD_BOUNDS_X, Math.min(WORLD_BOUNDS_X, x))`. -/
def clampX (v : JsNum) : JsNum :=
  jsMax (.num (-WORLD_BOUNDS_X)) (jsMin (.num WORLD_BOUNDS_X) v)

/-- Clamp of a client Z coordinate:
`Math.max(-WORLD_BOUNDS_Z, Math.min(WORLD_BOUNDS_Z, z))`. -/
def clampZ (v : JsNum) : JsNum :=
  jsMax (.num (-WORLD_BOUNDS_Z)) (jsMin (.num WORLD_BOUNDS_Z) v)

/-- `Player.updateState(updateData)` from server/player.js. `now` stands for
`Date.now()` (written to `lastUpdateTime`). Position X/Z are clamped and
applied whenever a position object is present; Y is left to server physics;
rotation is applied whenever present; the input flags and `lastInputSeq` are
applied only when `inputSeq` is defined and strictly greater than
`lastInputSeq` (a NaN `inputSeq` fails the `>` test). -/
def PlayerState.updateState (p : PlayerState) (d : UpdateData) (now : ℚ) :
    PlayerState :=
  if p.isAlive = false then p
  else
    let p1 :=
      match d.position with
      | some pos =>
          { p with position := { x := clampX pos.x, y := p.position.y,
                                 z := clampZ pos.z } }
      | none => p
    let p2 :=
      match d.rotation with
      | some ry => { p1 with rotationY := ry }
      | none => p1
    let p3 :=
      match d.inputSeq with
      | some (.num s) =>
          if p2.lastInputSeq < s then
            { p2 with lastInputSeq := s,
                      isMovingForward := d.movingForward.getD p2.isMovingForward,
                      isMovingBackward := d.movingBackward.getD p2.isMovingBackward,
                      isTurningLeft := d.turningLeft.getD p2.isTurningLeft,
                      isTurningRight := d.turningRight.getD p2.isTurningRight,
                      isShooting := d.isShooting.getD p2.isShooting,
                      isSprinting := d.isSprinting.getD p2.isSprinting }
          else p2
      | _ => p2
    { p3 with lastUpdateTime := now }

/-- `Player.attemptShoot()` from server/player.js. `now` stands for
`Date.now()`. Returns whether the shot is allowed (alive and per-weapon
cooldown elapsed since `lastShotTime`) and the updated state (`lastShotTime`
is set only on success). -/
def PlayerState.attemptShoot (p : PlayerState) (now : ℚ) : Bool × PlayerState :=
  let weaponConfig := getWeaponConfig p.currentWeapon
  let cooldown := weaponConfig.cooldown
  if p.isAlive = true ∧ cooldown ≤ now - p.lastShotTime then
    (true, { p with lastShotTime := now })
  else (false, p)

/-- `Player.die()` from server/player.js: no-op on a dead player; otherwise
marks dead, resets jump/ground/sprint flags, zeroes velocity, emits the
death event with the recorded killer, and schedules the deferred respawn. -/
def PlayerState.die (p : PlayerState) : PlayerState × List PEvent :=
  if p.isAlive = false then (p, [])
  else
    let killerId := p.lastShooterId
    ({ p with isAlive := false, isJumping := false, isGrounded := true,
              isSprinting := false, velocity := qv 0 0 0,
              respawnScheduled := true },
     [PEvent.playerDied killerId])

/-- `Player.takeDamage(amount, shooterId)` from server/player.js: no-op on a
dead player; otherwise subtracts health, records the shooter, broadcasts the
hit event carrying the already-subtracted (unclamped) health, then clamps
health to 0 and dies when it dropped to ≤ 0. Returns (new state, emitted
events, whether the hit was lethal). -/
def PlayerState.takeDamage (p : PlayerState) (amount : ℚ) (shooterId : String) :
    PlayerState × List PEvent × Bool :=
  if p.isAlive = false then (p, [], false)
  else
    let p1 := { p with health := p.health - amount,
                       lastShooterId := some shooterId }
    let hitEv := PEvent.playerHit p.id shooterId amount p1.health
    if p1.health ≤ 0 then
      let p2 := { p1 with health := 0 }
      let r := p2.die
      (r.1, hitEv :: r.2, true)
    else (p1, [hitEv], false)

/-! Npc (server/npc.js, src/unnamed/part_000). Only the fields read by the
damage/death path and by projectile collision are carried; the patrol-AI
fields (waypoints, waypoint index, wait timer, patrol speed, rotation) are
untouched by those operations and omitted. -/

/-- Mutable server-side NPC state. -/
structure NpcState where
  id : String
  position : JVec3
  size : JVec3
  maxHealth : ℚ
  health : ℚ
  isAlive : Bool
  lastAttackerId : Option String
deriving DecidableEq

/-- `Npc.die()`: no-op on a dead NPC; otherwise marks dead (terminal — no
respawn path). -/
def NpcState.die (n : NpcState) : NpcState :=
  if n.isAlive = false then n else { n with isAlive := false }

/-- `Npc.takeDamage(amount, attackerId)`: no-op on a dead NPC; otherwise
subtracts health (with no clamp at 0), records the attacker, and dies when
health dropped to ≤ 0. Returns (new state, whether the NPC was destroyed). -/
def NpcState.takeDamage (n : NpcState) (amount : ℚ) (attackerId : String) :
    NpcState × Bool :=
  if n.isAlive = false then (n, false)
  else
    let n1 := { n with health := n.health - amount,
                       lastAttackerId := some attackerId }
    if n1.health ≤ 0 then (n1.die, true)
    else (n1, false)

/-! Projectile & collision (server/projectile.js). -/

/-- AABB overlap test `checkCollision(posA, sizeA, posB, sizeB)`. The
source's leading `typeof ... !== 'number'` guard rejects non-number inputs;
every `JsNum` (NaN included — `typeof NaN === 'number'`) passes it, so the
guard is discharged by typing. With a NaN coordinate every comparison is
false, so the function returns false, as in JS. -/
def checkCollision (posA sizeA posB sizeB : JVec3) : Bool :=
  let minAx := jsSub posA.x (jsDiv sizeA.x (.num 2))
  let maxAx := jsAdd posA.x (jsDiv sizeA.x (.num 2))
  let minAy := jsSub posA.y (jsDiv sizeA.y (.num 2))
  let maxAy := jsAdd posA.y (jsDiv sizeA.y (.num 2))
  let minAz := jsSub posA.z (jsDiv sizeA.z (.num 2))
  let maxAz := jsAdd posA.z (jsDiv sizeA.z (.num 2))
  let minBx := jsSub posB.x (jsDiv sizeB.x (.num 2))
  let maxBx := jsAdd posB.x (jsDiv sizeB.x (.num 2))
  let minBy := jsSub posB.y (jsDiv sizeB.y (.num 2))
  let maxBy := jsAdd posB.y (jsDiv sizeB.y (.num 2))
  let minBz := jsSub posB.z (jsDiv sizeB.z (.num 2))
  let maxBz := jsAdd posB.z (jsDiv sizeB.z (.num 2))
  (jsLe minAx maxBx && jsGe maxAx minBx) &&
  (jsLe minAy maxBy && jsGe maxAy minBy) &&
  (jsLe minAz maxBz && jsGe maxAz minBz)

/-- Mutable projectile state (fields read by `checkCollisions`; the
kinematics fields velocity/lifetime/creationTime are handled by `update`,
which no claim needs). -/
structure ProjState where
  id : String
  ownerId : String
  damage : ℚ
  position : JVec3
  size : JVec3
  isActive : Bool
deriving DecidableEq

/-- A static obstacle (position is the box center, size its full extents). -/
structure ObstacleState where
  id : String
  position : JVec3
  size : JVec3
deriving DecidableEq

/-- The hit result object returned by `Projectile.checkCollisions` (its
`hitPlayer`/`hitNpc` references are recovered by id from the collections). -/
inductive Hit where
  | player (id : String)
  | npc (id : String)
  | obstacle (id : String)
deriving DecidableEq

/-- Approximate player hit-box used by the player loop of
`checkCollisions`: `{ x: 0.6, y: 1.7, z: 0.6 }`. -/
def playerSize : JVec3 := qv (3/5) (17/10) (3/5)

/-- Player box center: `{ ...player.position, y: player.position.y +
playerSize.y / 2 }` (tracked position is a ground-contact point). -/
def playerCenterPos (pl : PlayerState) : JVec3 :=
  { pl.position with y := jsAdd pl.position.y (jsDiv playerSize.y (.num 2)) }

/-- NPC box center: `{ ...npc.position, y: npc.position.y + npcSize.y / 2 }`.
The source's `npc.size || default` fallback never fires: the Npc constructor
always assigns a size. -/
def npcCenterPos (n : NpcState) : JVec3 :=
  { n.position with y := jsAdd n.position.y (jsDiv n.size.y (.num 2)) }

/-- The player loop of `checkCollisions`: iterate in collection order,
skip the owner and dead players, return the first AABB match. -/
def findPlayerHit (pr : ProjState) : List PlayerState → Option PlayerState
  | [] => none
  | pl :: rest =>
      if pl.id = pr.ownerId ∨ pl.isAlive = false then findPlayerHit pr rest
      else if checkCollision pr.position pr.size (playerCenterPos pl) playerSize
      then some pl
      else findPlayerHit pr rest

/-- The NPC loop of `checkCollisions`: skip dead NPCs, return the first
AABB match. -/
def findNpcHit (pr : ProjState) : List NpcState → Option NpcState
  | [] => none
  | n :: rest =>
      if n.isAlive = false then findNpcHit pr rest
      else if checkCollision pr.position pr.size (npcCenterPos n) n.size
      then some n
      else findNpcHit pr rest

/-- The obstacle loop of `checkCollisions`: return the first AABB match. -/
def findObstacleHit (pr : ProjState) : List ObstacleState → Option ObstacleState
  | [] => none
  | o :: rest =>
      if checkCollision pr.position pr.size o.position o.size then some o
      else findObstacleHit pr rest

/-- `Projectile.checkCollisions(players, npcs, obstacles)`: null on an
inactive projectile; otherwise tests live non-owner players, then live NPCs,
then obstacles, in collection order; the first match sets `isActive = false`
and is returned. Returns (hit result, updated projectile). -/
def ProjState.checkCollisions (pr : ProjState) (players : List PlayerState)
    (npcs : List NpcState) (obstacles : List ObstacleState) :
    Option Hit × ProjState :=
  if pr.isActive = false then (none, pr)
  else
    match findPlayerHit pr players with
    | some pl => (some (Hit.player pl.id), { pr with isActive := false })
    | none =>
      match findNpcHit pr npcs with
      | some n => (some (Hit.npc n.id), { pr with isActive := false })
      | none =>
        match findObstacleHit pr obstacles with
        | some o => (some (Hit.obstacle o.id), { pr with isActive := false })
        | none => (none, pr)

/-! GameState spawn allocation (server/game_state.js, src/unnamed/part_002). -/

/-- The fixed ordered spawn table `SPAWN_POINTS` (13 entries, all at
`PLAYER_GROUND_Y`). -/
def SPAWN_POINTS : List JVec3 :=
  [qv 0 PLAYER_GROUND_Y 0, qv 15 PLAYER_GROUND_Y 15, qv (-15) PLAYER_GROUND_Y (-15),
   qv (-15) PLAYER_GROUND_Y 15, qv 15 PLAYER_GROUND_Y (-15), qv 0 PLAYER_GROUND_Y 25,
   qv 0 PLAYER_GROUND_Y (-25), qv 25 PLAYER_GROUND_Y 0, qv (-25) PLAYER_GROUND_Y 0,
   qv 20 PLAYER_GROUND_Y 20, qv (-20) PLAYER_GROUND_Y (-20), qv (-20) PLAYER_GROUND_Y 20,
   qv 20 PLAYER_GROUND_Y (-20)]

/-- `GameState.getSpawnPosition()`: reads the entry at the module-level
cursor `nextSpawnPointIndex` and advances the cursor modulo the table length.
The cursor starts at 0 and is always reduced modulo the length, so the
`getD` default is never reached. Returns (spawn point copy, new cursor). -/
def getSpawnPosition (nextSpawnPointIndex : ℕ) : JVec3 × ℕ :=
  (SPAWN_POINTS.getD nextSpawnPointIndex (qv 0 PLAYER_GROUND_Y 0),
   (nextSpawnPointIndex + 1) % SPAWN_POINTS.length)

/-- Runs `n` consecutive `getSpawnPosition` calls from cursor `i`, collecting
the returned spawn points in call order together with the final cursor. -/
def spawnCalls : ℕ → ℕ → List JVec3 × ℕ
  | 0, i => ([], i)
  | n + 1, i =>
      let r := getSpawnPosition i
      let rest := spawnCalls n r.2
      (r.1 :: rest.1, rest.2)

/-! Concrete fixtures used by counterexamples and witnesses. `basePlayer` is a
freshly connected player as built by the Player constructor (spawned at the
origin, full health, default weapon, `lastInputSeq = -1`). -/

/-- A freshly constructed player at the origin. -/
def basePlayer : PlayerState :=
  { id := "p1", maxHealth := 100, health := 100, score := 0, isAlive := true,
    lastShooterId := none, position := qv 0 PLAYER_GROUND_Y 0,
    rotationY := .num 0, velocity := qv 0 0 0, isJumping := false,
    isGrounded := true, isSprinting := false, isMovingForward := false,
    isMovingBackward := false, isTurningLeft := false, isTurningRight := false,
    isShooting := false, currentWeapon := "default", lastShotTime := 0,
    lastUpdateTime := 0, lastInputSeq := -1, respawnScheduled := false }

/-- An `UpdateData` payload with every field absent. -/
def emptyUpdate : UpdateData :=
  { position := none, rotation := none, inputSeq := none,
    movingForward := none, movingBackward := none, turningLeft := none,
    turningRight := none, isShooting := none, isSprinting := none }

/-- A stale payload: `inputSeq = 3`, carrying a new position, rotation, and a
movingForward flag. -/
def staleUpdate : UpdateData :=
  { emptyUpdate with position := some (qv 10 PLAYER_GROUND_Y 0),
                     rotation := some (.num 1),
                     inputSeq := some (.num 3),
                     movingForward := some true }

/-- A payload whose position X is NaN. -/
def nanUpdate : UpdateData :=
  { emptyUpdate with position := some ⟨JsNum.nan, .num PLAYER_GROUND_Y, .num 0⟩ }

/-- C1 counterexample: a player whose `lastInputSeq` is 5 receives a payload
with `inputSeq = 3 ≤ 5`; the claim says position, rotation and flags are all
left unaltered, but `updateState` applies the position and rotation
unconditionally, so both change. -/
theorem updateState_stale_alters_position :
    staleUpdate.inputSeq = some (.num 3) ∧
    ({ basePlayer with lastInputSeq := 5 } : PlayerState).lastInputSeq = 5 ∧
    (3 : ℚ) ≤ 5 ∧
    (({ basePlayer with lastInputSeq := 5 } : PlayerState).updateState
        staleUpdate 0).position.x ≠
      ({ basePlayer with lastInputSeq := 5 } : PlayerState).position.x ∧
    (({ basePlayer with lastInputSeq := 5 } : PlayerState).updateState
        staleUpdate 0).rotationY ≠
      ({ basePlayer with lastInputSeq := 5 } : PlayerState).rotationY := by
  refine ⟨rfl, rfl, by norm_num, ?_, ?_⟩ <;>
    simp [PlayerState.updateState, basePlayer, staleUpdate, emptyUpdate,
          clampX, jsMax, jsMin, WORLD_BOUNDS_X, qv] <;> norm_num

/-- C1 (amended): a call whose `inputSeq` is defined and `≤ lastInputSeq`
never alters the input flags or `lastInputSeq` (position and rotation,
by contrast, are applied unconditionally whenever present). -/
theorem updateState_stale_flags_unchanged (p : PlayerState) (d : UpdateData)
    (now s : ℚ) (hseq : d.inputSeq = some (.num s))
    (hstale : s ≤ p.lastInputSeq) :
    (p.updateState d now).lastInputSeq = p.lastInputSeq ∧
    (p.updateState d now).isMovingForward = p.isMovingForward ∧
    (p.updateState d now).isMovingBackward = p.isMovingBackward ∧
    (p.updateState d now).isTurningLeft = p.isTurningLeft ∧
    (p.updateState d now).isTurningRight = p.isTurningRight ∧
    (p.updateState d now).isShooting = p.isShooting ∧
    (p.updateState d now).isSprinting = p.isSprinting := by
  have hlt : ¬ p.lastInputSeq < s := not_lt.mpr hstale
  cases hA : p.isAlive
  · simp [PlayerState.updateState, hA]
  · rcases hP : d.position with _ | pos <;>
      rcases hR : d.rotation with _ | ry <;>
        simp [PlayerState.updateState, hA, hP, hR, hseq, hlt]

/-- C1 (amended) witness at the concrete stale scenario. -/
theorem updateState_stale_flags_unchanged_witness :
    (({ basePlayer with lastInputSeq := 5 } : PlayerState).updateState
        staleUpdate 0).lastInputSeq = 5 ∧
    (({ basePlayer with lastInputSeq := 5 } : PlayerState).updateState
        staleUpdate 0).isMovingForward = false := by
  have h := updateState_stale_flags_unchanged
    ({ basePlayer with lastInputSeq := 5 }) staleUpdate 0 3 rfl (by norm_num)
  exact ⟨h.1, h.2.1⟩

/-- C3 counterexample: a payload whose position X is NaN passes the world
bound clamp unchanged (`Math.max`/`Math.min` propagate NaN), so the stored
X coordinate after `updateState` is NaN — no safe default is substituted
and the invalid value does enter simulation state. -/
theorem updateState_nan_enters_state :
    basePlayer.position.x.isFinite = true ∧
    (basePlayer.updateState nanUpdate 0).position.x = JsNum.nan ∧
    (basePlayer.updateState nanUpdate 0).position.x.isFinite = false := by
  refine ⟨rfl, ?_, ?_⟩ <;> rfl

/-- C3 (amended): `Player.updateState` performs no NaN substitution: for a
live player, a payload position with NaN X is stored as NaN X. (Finite
out-of-range values, by contrast, are clamped into the world bounds.) -/
theorem updateState_no_nan_substitution (p : PlayerState) (d : UpdateData)
    (now : ℚ) (pos : JVec3) (hA : p.isAlive = true)
    (hP : d.position = some pos) (hx : pos.x = JsNum.nan) :
    (p.updateState d now).position.x = JsNum.nan := by
  rcases hR : d.rotation with _ | ry <;>
    rcases hS : d.inputSeq with _ | (_ | s) <;>
      simp [PlayerState.updateState, hA, hP, hR, hS, hx, clampX, jsMin, jsMax] <;>
        split <;> simp

/-- C3 (amended) witness at the concrete NaN payload. -/
theorem updateState_no_nan_substitution_witness :
    (basePlayer.updateState nanUpdate 0).position.x = JsNum.nan :=
  updateState_no_nan_substitution basePlayer nanUpdate 0
    ⟨JsNum.nan, .num PLAYER_GROUND_Y, .num 0⟩ rfl rfl rfl

/-- C9: `Player.updateState` never changes the stored Y coordinate, and the
X/Z coordinates are taken from the payload exactly when the player is alive
and a position is present, clamped to the world bounds. -/
theorem updateState_y_server_authoritative (p : PlayerState) (d : UpdateData)
    (now : ℚ) :
    (p.updateState d now).position.y = p.position.y ∧
    (p.updateState d now).position.x =
      (if p.isAlive = true then
        (match d.position with
         | some pos => clampX pos.x
         | none => p.position.x)
       else p.position.x) ∧
    (p.updateState d now).position.z =
      (if p.isAlive = true then
        (match d.position with
         | some pos => clampZ pos.z
         | none => p.position.z)
       else p.position.z) := by
  cases hA : p.isAlive <;>
    rcases hP : d.position with _ | pos <;>
      rcases hR : d.rotation with _ | ry <;>
        rcases hS : d.inputSeq with _ | (_ | s) <;>
          simp [PlayerState.updateState, hA, hP, hR, hS] <;>
            split <;> simp

/-- The first patroller NPC as initialized by `GameState._initializeNpcs`
(health 75, size 0.7 × 1.7 × 0.7). -/
def baseNpc : NpcState :=
  { id := "npc_patroller_1", position := qv (-10) PLAYER_GROUND_Y 10,
    size := qv (7/10) (17/10) (7/10), maxHealth := 75, health := 75,
    isAlive := true, lastAttackerId := none }

/-- C2 counterexample: `Npc.takeDamage` has no clamp at 0 — 100 damage to the
75-health patroller leaves its stored health at −25, strictly below 0, so NPC
damage semantics do not mirror the Player clamp. -/
theorem npc_health_goes_negative :
    baseNpc.isAlive = true ∧ baseNpc.health = 75 ∧
    (baseNpc.takeDamage 100 "p1").1.health = -25 ∧
    (baseNpc.takeDamage 100 "p1").1.health < 0 := by
  refine ⟨rfl, rfl, ?_, ?_⟩ <;>
    norm_num [NpcState.takeDamage, NpcState.die, baseNpc]

/-- C2 (amended): `Player.takeDamage` keeps health within [0, max] for any
nonnegative damage amount, but `Npc.takeDamage` does not mirror this: for a
live NPC the stored health is exactly `health − amount`, with no clamp, so it
is negative whenever the damage exceeds the current health. -/
theorem takeDamage_health_clamp (p : PlayerState) (n : NpcState) (a b : ℚ)
    (sid aid : String) :
    (0 ≤ a → 0 ≤ p.health → p.health ≤ p.maxHealth →
      0 ≤ (p.takeDamage a sid).1.health ∧
      (p.takeDamage a sid).1.health ≤ p.maxHealth) ∧
    (n.isAlive = true → (n.takeDamage b aid).1.health = n.health - b) := by
  constructor
  · intro ha h0 hmax
    cases hA : p.isAlive
    · simpa [PlayerState.takeDamage, hA] using ⟨h0, hmax⟩
    · by_cases hl : p.health - a ≤ 0
      · simp [PlayerState.takeDamage, PlayerState.die, hA, hl]
        linarith
      · simp [PlayerState.takeDamage, hA, hl]
        constructor <;> linarith
  · intro hAlive
    by_cases hl : n.health - b ≤ 0 <;>
      simp [NpcState.takeDamage, NpcState.die, hAlive, hl]

/-- C2 (amended) witness: 30 damage to a full-health player lands in
[0, 100]; 100 damage to the live 75-health patroller stores 75 − 100. -/
theorem takeDamage_health_clamp_witness :
    (0 ≤ (basePlayer.takeDamage 30 "p2").1.health ∧
     (basePlayer.takeDamage 30 "p2").1.health ≤ basePlayer.maxHealth) ∧
    (baseNpc.takeDamage 100 "p1").1.health = baseNpc.health - 100 := by
  have h := takeDamage_health_clamp basePlayer baseNpc 30 100 "p2" "p1"
  exact ⟨h.1 (by norm_num) (by norm_num [basePlayer]) (by norm_num [basePlayer]),
         h.2 rfl⟩

/-- C7: `Player.die()` is idempotent — a second call on the result of `die`
returns the same state and emits nothing (so it neither zeroes velocity
again, re-schedules the respawn, nor emits another death event), and a call
on an already-dead player is an exact no-op with no events. -/
theorem die_idempotent (p : PlayerState) :
    (p.die.1).die = (p.die.1, []) ∧
    (p.isAlive = false → p.die = (p, [])) := by
  constructor
  · cases hA : p.isAlive <;> simp [PlayerState.die, hA]
  · intro h
    simp [PlayerState.die, h]

/-- C7 witness: die-twice equals die-once on the base player, and die on a
dead player is a no-op. -/
theorem die_idempotent_witness :
    ((basePlayer.die.1).die = (basePlayer.die.1, [])) ∧
    ({ basePlayer with isAlive := false } : PlayerState).die =
      ({ basePlayer with isAlive := false }, []) :=
  ⟨(die_idempotent basePlayer).1,
   (die_idempotent { basePlayer with isAlive := false }).2 rfl⟩

/-- C10: for a live player, the `player_hit` event broadcast by `takeDamage`
carries `remainingHealth = health − amount` before any clamping, while the
stored health is clamped: it is 0 exactly on a lethal hit (so the broadcast
value can be negative even though the stored field is 0). -/
theorem takeDamage_hit_event_preclamp (p : PlayerState) (a : ℚ) (sid : String)
    (hA : p.isAlive = true) :
    (p.takeDamage a sid).2.1.head? =
      some (PEvent.playerHit p.id sid a (p.health - a)) ∧
    (p.health - a ≤ 0 → (p.takeDamage a sid).1.health = 0) ∧
    (0 < p.health - a → (p.takeDamage a sid).1.health = p.health - a) := by
  by_cases hl : p.health - a ≤ 0
  · simp [PlayerState.takeDamage, PlayerState.die, hA, hl]
    intro h
    linarith
  · simp [PlayerState.takeDamage, hA, hl]

/-- C10 witness: a 50-damage lethal hit on a 20-health player broadcasts
remaining health 20 − 50 = −30 < 0 while the stored health becomes 0. -/
theorem takeDamage_hit_event_preclamp_witness :
    (({ basePlayer with health := 20 } : PlayerState).takeDamage 50 "p2").2.1.head? =
      some (PEvent.playerHit "p1" "p2" 50 (20 - 50)) ∧
    (20 - 50 : ℚ) < 0 ∧
    (({ basePlayer with health := 20 } : PlayerState).takeDamage 50 "p2").1.health
      = 0 := by
  have h := takeDamage_hit_event_preclamp
    ({ basePlayer with health := 20 }) 50 "p2" rfl
  exact ⟨h.1, by norm_num, h.2.1 (by norm_num)⟩

/-- C5: `Player.attemptShoot()` returns true exactly when the player is alive
and the current weapon's cooldown has elapsed since the last successful shot;
after a successful shot at `t0`, a second call inside the cooldown window
returns false and a call at or after cooldown expiry returns true. -/
theorem attemptShoot_cooldown_gate (p : PlayerState) (t0 t1 t2 : ℚ) :
    ((p.attemptShoot t0).1 = true ↔
      (p.isAlive = true ∧
       (getWeaponConfig p.currentWeapon).cooldown ≤ t0 - p.lastShotTime)) ∧
    ((p.attemptShoot t0).1 = true →
      t1 - t0 < (getWeaponConfig p.currentWeapon).cooldown →
      ((p.attemptShoot t0).2.attemptShoot t1).1 = false) ∧
    ((p.attemptShoot t0).1 = true →
      (getWeaponConfig p.currentWeapon).cooldown ≤ t2 - t0 →
      ((p.attemptShoot t0).2.attemptShoot t2).1 = true) := by
  by_cases h : p.isAlive = true ∧
      (getWeaponConfig p.currentWeapon).cooldown ≤ t0 - p.lastShotTime
  · refine ⟨by simp [PlayerState.attemptShoot, h], ?_, ?_⟩
    · intro _ hlt
      have hno : ¬ (getWeaponConfig p.currentWeapon).cooldown ≤ t1 - t0 := by
        linarith
      simp [PlayerState.attemptShoot, h, h.1, hno]
    · intro _ hge
      simp [PlayerState.attemptShoot, h, h.1, hge]
  · simp [PlayerState.attemptShoot, h]

/-- C5 witness: the default weapon (cooldown 500) fired at t = 1000 succeeds,
a repeat at t = 1200 (inside the window) fails, and a repeat at t = 1600
(after expiry) succeeds. -/
theorem attemptShoot_cooldown_gate_witness :
    (basePlayer.attemptShoot 1000).1 = true ∧
    ((basePlayer.attemptShoot 1000).2.attemptShoot 1200).1 = false ∧
    ((basePlayer.attemptShoot 1000).2.attemptShoot 1600).1 = true := by
  have h := attemptShoot_cooldown_gate basePlayer 1000 1200 1600
  have hcd : (getWeaponConfig basePlayer.currentWeapon).cooldown = 500 := rfl
  have h1 : (basePlayer.attemptShoot 1000).1 = true :=
    h.1.mpr ⟨rfl, by rw [hcd]; norm_num [basePlayer]⟩
  exact ⟨h1, h.2.1 h1 (by rw [hcd]; norm_num), h.2.2 h1 (by rw [hcd]; norm_num)⟩

/-- C6: over the fixed 13-entry spawn table, 13 consecutive
`getSpawnPosition` calls starting from the initial cursor return exactly the
table entries, in order and (the table being duplicate-free) each exactly
once; the cursor returns to its start, so the 14th call repeats the 1st. -/
theorem getSpawnPosition_round_robin :
    SPAWN_POINTS.length = 13 ∧
    (spawnCalls 13 0).1 = SPAWN_POINTS ∧
    (spawnCalls 13 0).2 = 0 ∧
    (spawnCalls 14 0).1 = SPAWN_POINTS ++ (spawnCalls 1 0).1 ∧
    SPAWN_POINTS.Nodup :=
  ⟨rfl, rfl, rfl, rfl, by norm_num [SPAWN_POINTS, qv, PLAYER_GROUND_Y]⟩

/-- Unfolds `checkCollision` on finite inputs to the per-axis interval
conditions over ℚ. -/
theorem checkCollision_finite_iff (pax pay paz sax say saz pbx pby pbz sbx sby sbz : ℚ) :
    checkCollision (qv pax pay paz) (qv sax say saz)
        (qv pbx pby pbz) (qv sbx sby sbz) = true ↔
      ((pax - sax / 2 ≤ pbx + sbx / 2 ∧ pbx - sbx / 2 ≤ pax + sax / 2) ∧
       (pay - say / 2 ≤ pby + sby / 2 ∧ pby - sby / 2 ≤ pay + say / 2) ∧
       (paz - saz / 2 ≤ pbz + sbz / 2 ∧ pbz - sbz / 2 ≤ paz + saz / 2)) := by
  simp [checkCollision, qv, and_assoc]

/-- C8: the AABB overlap test. Boxes with identical centers and strictly
positive sizes always overlap; boxes whose centers are separated on at least
one axis by more than the sum of the half-extents on that axis never
overlap; and overlap holds exactly when on every axis `minA ≤ maxB` and
`maxA ≥ minB`. -/
theorem checkCollision_aabb_spec :
    (∀ cx cy cz sax say saz sbx sby sbz : ℚ,
      0 < sax → 0 < say → 0 < saz → 0 < sbx → 0 < sby → 0 < sbz →
      checkCollision (qv cx cy cz) (qv sax say saz)
        (qv cx cy cz) (qv sbx sby sbz) = true) ∧
    (∀ pax pay paz sax say saz pbx pby pbz sbx sby sbz : ℚ,
      ((sax + sbx) / 2 < |pax - pbx| ∨ (say + sby) / 2 < |pay - pby| ∨
       (saz + sbz) / 2 < |paz - pbz|) →
      checkCollision (qv pax pay paz) (qv sax say saz)
        (qv pbx pby pbz) (qv sbx sby sbz) = false) ∧
    (∀ pax pay paz sax say saz pbx pby pbz sbx sby sbz : ℚ,
      checkCollision (qv pax pay paz) (qv sax say saz)
          (qv pbx pby pbz) (qv sbx sby sbz) = true ↔
        ((pax - sax / 2 ≤ pbx + sbx / 2 ∧ pbx - sbx / 2 ≤ pax + sax / 2) ∧
         (pay - say / 2 ≤ pby + sby / 2 ∧ pby - sby / 2 ≤ pay + say / 2) ∧
         (paz - saz / 2 ≤ pbz + sbz / 2 ∧ pbz - sbz / 2 ≤ paz + saz / 2))) := by
  refine ⟨?_, ?_, fun pax pay paz sax say saz pbx pby pbz sbx sby sbz =>
    checkCollision_finite_iff pax pay paz sax say saz pbx pby pbz sbx sby sbz⟩
  · intro cx cy cz sax say saz sbx sby sbz hax hay haz hbx hby hbz
    rw [checkCollision_finite_iff]
    refine ⟨⟨?_, ?_⟩, ⟨?_, ?_⟩, ⟨?_, ?_⟩⟩ <;> linarith
  · intro pax pay paz sax say saz pbx pby pbz sbx sby sbz hsep
    apply Bool.eq_false_iff.mpr
    intro htrue
    rw [checkCollision_finite_iff] at htrue
    obtain ⟨⟨hx1, hx2⟩, ⟨hy1, hy2⟩, ⟨hz1, hz2⟩⟩ := htrue
    rcases hsep with h | h | h <;> rcases lt_abs.mp h with h2 | h2 <;> linarith

/-- C8 witness: unit and double cubes sharing a center overlap; cubes whose
centers are 5 apart on the X axis (half-extent sum 3/2) do not; the per-axis
characterization instantiated at the shared-center configuration. -/
theorem checkCollision_aabb_spec_witness :
    checkCollision (qv 0 0 0) (qv 1 1 1) (qv 0 0 0) (qv 2 2 2) = true ∧
    checkCollision (qv 0 0 0) (qv 1 1 1) (qv 5 0 0) (qv 2 2 2) = false ∧
    (checkCollision (qv 0 0 0) (qv 1 1 1) (qv 0 0 0) (qv 2 2 2) = true ↔
      (((0 : ℚ) - 1 / 2 ≤ 0 + 2 / 2 ∧ (0 : ℚ) - 2 / 2 ≤ 0 + 1 / 2) ∧
       ((0 : ℚ) - 1 / 2 ≤ 0 + 2 / 2 ∧ (0 : ℚ) - 2 / 2 ≤ 0 + 1 / 2) ∧
       ((0 : ℚ) - 1 / 2 ≤ 0 + 2 / 2 ∧ (0 : ℚ) - 2 / 2 ≤ 0 + 1 / 2))) := by
  have h := checkCollision_aabb_spec
  refine ⟨h.1 0 0 0 1 1 1 2 2 2 (by norm_num) (by norm_num) (by norm_num)
            (by norm_num) (by norm_num) (by norm_num),
          h.2.1 0 0 0 1 1 1 5 0 0 2 2 2 (by norm_num),
          h.2.2 0 0 0 1 1 1 0 0 0 2 2 2⟩

/-- The player loop is a first-match search: it returns the first player in
collection order that is neither the owner nor dead and whose box the
projectile overlaps. -/
theorem findPlayerHit_eq_find? (pr : ProjState) (ps : List PlayerState) :
    findPlayerHit pr ps = ps.find? (fun pl =>
      !(pl.id == pr.ownerId) && pl.isAlive &&
        checkCollision pr.position pr.size (playerCenterPos pl) playerSize) := by
  induction ps with
  | nil => rfl
  | cons pl rest ih =>
    by_cases h1 : pl.id = pr.ownerId
    · have hb : (pl.id == pr.ownerId) = true := beq_iff_eq.mpr h1
      simp [findPlayerHit, h1, hb, ih, List.find?]
    · have hb : (pl.id == pr.ownerId) = false := beq_eq_false_iff_ne.mpr h1
      by_cases h2 : pl.isAlive = true
      · by_cases h3 : checkCollision pr.position pr.size (playerCenterPos pl)
            playerSize = true
        · simp [findPlayerHit, h1, h2, h3, hb, List.find?]
        · simp only [Bool.not_eq_true] at h3
          simp [findPlayerHit, h1, h2, h3, hb, ih, List.find?]
      · simp only [Bool.not_eq_true] at h2
        simp [findPlayerHit, h1, h2, hb, ih, List.find?]

/-- The NPC loop is a first-match search over live NPCs. -/
theorem findNpcHit_eq_find? (pr : ProjState) (ns : List NpcState) :
    findNpcHit pr ns = ns.find? (fun n =>
      n.isAlive && checkCollision pr.position pr.size (npcCenterPos n) n.size) := by
  induction ns with
  | nil => rfl
  | cons n rest ih =>
    by_cases h2 : n.isAlive = true
    · by_cases h3 : checkCollision pr.position pr.size (npcCenterPos n) n.size
          = true
      · simp [findNpcHit, h2, h3, List.find?]
      · simp only [Bool.not_eq_true] at h3
        simp [findNpcHit, h2, h3, ih, List.find?]
    · simp only [Bool.not_eq_true] at h2
      simp [findNpcHit, h2, ih, List.find?]

/-- The obstacle loop is a first-match search. -/
theorem findObstacleHit_eq_find? (pr : ProjState) (os : List ObstacleState) :
    findObstacleHit pr os = os.find? (fun o =>
      checkCollision pr.position pr.size o.position o.size) := by
  induction os with
  | nil => rfl
  | cons o rest ih =>
    by_cases h3 : checkCollision pr.position pr.size o.position o.size = true
    · simp [findObstacleHit, h3, List.find?]
    · simp only [Bool.not_eq_true] at h3
      simp [findObstacleHit, h3, ih, List.find?]

/-- C4: `Projectile.checkCollisions` resolves at most one target: on an
inactive projectile it is a no-op returning no hit; on an active projectile
it deactivates the projectile exactly when it returns a hit; the hit is the
first match in the order live players excluding the owner (dead players
skipped), then live NPCs, then obstacles; and once a hit is resolved the
(now inactive) projectile can never resolve another one. -/
theorem checkCollisions_resolution (pr : ProjState) (ps : List PlayerState)
    (ns : List NpcState) (os : List ObstacleState) :
    (pr.isActive = false → pr.checkCollisions ps ns os = (none, pr)) ∧
    (pr.isActive = true →
      (((pr.checkCollisions ps ns os).1 ≠ none) ↔
        (pr.checkCollisions ps ns os).2.isActive = false)) ∧
    (pr.isActive = true →
      (pr.checkCollisions ps ns os).1 =
        (((ps.find? (fun pl =>
            !(pl.id == pr.ownerId) && pl.isAlive &&
              checkCollision pr.position pr.size (playerCenterPos pl)
                playerSize)).map (fun pl => Hit.player pl.id)) <|>
         ((ns.find? (fun n =>
            n.isAlive && checkCollision pr.position pr.size (npcCenterPos n)
              n.size)).map (fun n => Hit.npc n.id)) <|>
         ((os.find? (fun o =>
            checkCollision pr.position pr.size o.position o.size)).map
              (fun o => Hit.obstacle o.id)))) ∧
    ((pr.checkCollisions ps ns os).1 ≠ none →
      (pr.checkCollisions ps ns os).2.checkCollisions ps ns os =
        (none, (pr.checkCollisions ps ns os).2)) := by
  rw [← findPlayerHit_eq_find?, ← findNpcHit_eq_find?, ← findObstacleHit_eq_find?]
  cases hA : pr.isActive
  · simp [ProjState.checkCollisions, hA]
  · rcases hp : findPlayerHit pr ps with _ | pl
    · rcases hn : findNpcHit pr ns with _ | n
      · rcases ho : findObstacleHit pr os with _ | o
        · exact ⟨by simp [hA],
                 by simp [ProjState.checkCollisions, hA, hp, hn, ho],
                 by simp [ProjState.checkCollisions, hA, hp, hn, ho],
                 by simp [ProjState.checkCollisions, hA, hp, hn, ho]⟩
        · exact ⟨by simp [hA],
                 by simp [ProjState.checkCollisions, hA, hp, hn, ho],
                 by simp [ProjState.checkCollisions, hA, hp, hn, ho],
                 by simp [ProjState.checkCollisions, hA, hp, hn, ho]⟩
      · exact ⟨by simp [hA],
               by simp [ProjState.checkCollisions, hA, hp, hn],
               by simp [ProjState.checkCollisions, hA, hp, hn],
               by simp [ProjState.checkCollisions, hA, hp, hn]⟩
    · exact ⟨by simp [hA],
             by simp [ProjState.checkCollisions, hA, hp],
             by simp [ProjState.checkCollisions, hA, hp],
             by simp [ProjState.checkCollisions, hA, hp]⟩

/-! Concrete C4 scenario: an active default projectile hovering at the base
spawn point, four players (the owner, a dead player, and two live targets,
all overlapping), one overlapping live NPC and one overlapping obstacle. -/

/-- An active projectile owned by "p1" at (0, 1, 0) with a 0.3-cube box. -/
def witnessProj : ProjState :=
  { id := "proj1", ownerId := "p1", damage := 20, position := qv 0 1 0,
    size := qv (3/10) (3/10) (3/10), isActive := true }

/-- A live target player distinct from the owner. -/
def cTarget : PlayerState := { basePlayer with id := "p2" }

/-- A second live player, after the target in collection order. -/
def cExtra : PlayerState := { basePlayer with id := "p3" }

/-- A dead player overlapping the projectile. -/
def cDead : PlayerState := { basePlayer with id := "pDead", isAlive := false }

/-- A live NPC moved onto the projectile. -/
def cNpc : NpcState := { baseNpc with position := qv 0 PLAYER_GROUND_Y 0 }

/-- An obstacle containing the projectile. -/
def cObstacle : ObstacleState :=
  { id := "obs1", position := qv 0 1 0, size := qv 2 2 2 }

/-- C4 witness: in the concrete scenario the projectile resolves exactly the
first live non-owner player ("p2"), is deactivated with that resolution,
resolves nothing on a repeat call, and an inactive projectile is a no-op. -/
theorem checkCollisions_resolution_witness :
    (witnessProj.checkCollisions [basePlayer, cDead, cTarget, cExtra]
        [cNpc] [cObstacle]).1 = some (Hit.player cTarget.id) ∧
    (witnessProj.checkCollisions [basePlayer, cDead, cTarget, cExtra]
        [cNpc] [cObstacle]).2.isActive = false ∧
    ((witnessProj.checkCollisions [basePlayer, cDead, cTarget, cExtra]
        [cNpc] [cObstacle]).2.checkCollisions
          [basePlayer, cDead, cTarget, cExtra] [cNpc] [cObstacle]) =
      (none, (witnessProj.checkCollisions [basePlayer, cDead, cTarget, cExtra]
        [cNpc] [cObstacle]).2) ∧
    (({ witnessProj with isActive := false } : ProjState).checkCollisions
        [basePlayer, cDead, cTarget, cExtra] [cNpc] [cObstacle]) =
      (none, { witnessProj with isActive := false }) := by
  have h := checkCollisions_resolution witnessProj
    [basePlayer, cDead, cTarget, cExtra] [cNpc] [cObstacle]
  have hccT : checkCollision witnessProj.position witnessProj.size
      (playerCenterPos cTarget) playerSize = true := by
    norm_num [checkCollision, playerCenterPos, playerSize, qv, witnessProj,
      cTarget, basePlayer, PLAYER_GROUND_Y]
  have hid1 : basePlayer.id = witnessProj.ownerId := rfl
  have hdead : cDead.isAlive = false := rfl
  have hidT : ¬ cTarget.id = witnessProj.ownerId := by decide
  have haliveT : cTarget.isAlive = true := rfl
  have hfind : findPlayerHit witnessProj [basePlayer, cDead, cTarget, cExtra] =
      some cTarget := by
    simp [findPlayerHit, hid1, hdead, hidT, haliveT, hccT]
  have h3 := h.2.2.1 rfl
  rw [← findPlayerHit_eq_find?, ← findNpcHit_eq_find?,
      ← findObstacleHit_eq_find?, hfind] at h3
  have h3' : (witnessProj.checkCollisions [basePlayer, cDead, cTarget, cExtra]
      [cNpc] [cObstacle]).1 = some (Hit.player cTarget.id) := by
    rw [h3]; rfl
  refine ⟨h3', (h.2.1 rfl).mp (by rw [h3']; simp),
          h.2.2.2 (by rw [h3']; simp), ?_⟩
  exact (checkCollisions_resolution { witnessProj with isActive := false }
    [basePlayer, cDead, cTarget, cExtra] [cNpc] [cObstacle]).1 rfl

end PolyRPG
